import Mathlib

/-!
Verification of the SignalEngine of the stock-trend-reader repository.

The engine lives in the TradingSignals component: `calculateTechnicalIndicators`
produces five synthetic technical indicators from a price and five draws of the
randomness source, `generateTradingSignal` combines them with a market-sentiment
scalar into a trading decision with confidence and price levels, and
`generateSignalData` derives a risk level from the confidence.

Embedding conventions:
- JavaScript numbers are modelled by the exact rationals ℚ.  All constants of
  the source (0.005, 0.02, 0.03, 1.02, 0.98, 20, 95, ...) are exact rationals.
- Each call of the ambient randomness source is an explicit parameter, a
  rational drawn from the interval [0, 1).
- The one place where the source can divide zero by zero, the risk/reward
  ratio in the HOLD case, is modelled by an Option: `none` stands for the
  non-finite JavaScript results (NaN or Infinity) of dividing by zero.
  The confidence divisions are guarded by the branch conditions and never
  divide by zero on the reachable domain, so plain rational division is used
  for them.
- The reasoning strings of the source interpolate formatted numbers and are
  referenced by no property, so the `reasoning` field is not modelled; all
  numeric fields are.
-/

/-- Indicator or decision signal, the string union BUY | SELL | HOLD. -/
inductive Signal where
  | BUY
  | SELL
  | HOLD
deriving DecidableEq, BEq, Repr

/-- Computation rules for the derived Boolean equality on `Signal`, used to
evaluate the indicator filters on concrete lists. -/
@[simp] theorem Signal.beq_buy_buy : (Signal.BUY == Signal.BUY) = true := rfl

@[simp] theorem Signal.beq_sell_buy : (Signal.SELL == Signal.BUY) = false := rfl

@[simp] theorem Signal.beq_hold_buy : (Signal.HOLD == Signal.BUY) = false := rfl

@[simp] theorem Signal.beq_buy_sell : (Signal.BUY == Signal.SELL) = false := rfl

@[simp] theorem Signal.beq_sell_sell : (Signal.SELL == Signal.SELL) = true := rfl

@[simp] theorem Signal.beq_hold_sell : (Signal.HOLD == Signal.SELL) = false := rfl

@[simp] theorem Signal.beq_buy_hold : (Signal.BUY == Signal.HOLD) = false := rfl

@[simp] theorem Signal.beq_sell_hold : (Signal.SELL == Signal.HOLD) = false := rfl

@[simp] theorem Signal.beq_hold_hold : (Signal.HOLD == Signal.HOLD) = true := rfl

/-- Risk level, the string union LOW | MEDIUM | HIGH. -/
inductive RiskLevel where
  | LOW
  | MEDIUM
  | HIGH
deriving DecidableEq, BEq, Repr

/-- The TechnicalIndicator interface of the source. -/
structure TechnicalIndicator where
  name : String
  value : ℚ
  signal : Signal
  strength : ℚ
  description : String
deriving DecidableEq, Repr

/-- The TradingSignal interface of the source.  `riskReward` is an Option:
`none` models the non-finite JavaScript value produced when the source divides
by zero.  The reasoning strings are not modelled. -/
structure TradingSignal where
  action : Signal
  confidence : ℚ
  entryPrice : ℚ
  targetPrice : ℚ
  stopLoss : ℚ
  riskReward : Option ℚ
  timeframe : String
deriving DecidableEq, Repr

/-- `indicators.filter(ind => ind.signal === 'BUY').length`. -/
def buySignals (inds : List TechnicalIndicator) : Nat :=
  (inds.filter fun ind => ind.signal == Signal.BUY).length

/-- `indicators.filter(ind => ind.signal === 'SELL').length`. -/
def sellSignals (inds : List TechnicalIndicator) : Nat :=
  (inds.filter fun ind => ind.signal == Signal.SELL).length

/-- `indicators.filter(ind => ind.signal === 'HOLD').length`. -/
def holdSignals (inds : List TechnicalIndicator) : Nat :=
  (inds.filter fun ind => ind.signal == Signal.HOLD).length

/-- `indicators.filter(BUY).reduce((sum, ind) => sum + ind.strength, 0)`. -/
def buyStrength (inds : List TechnicalIndicator) : ℚ :=
  (inds.filter fun ind => ind.signal == Signal.BUY).foldl
    (fun sum ind => sum + ind.strength) 0

/-- `indicators.filter(SELL).reduce((sum, ind) => sum + ind.strength, 0)`. -/
def sellStrength (inds : List TechnicalIndicator) : ℚ :=
  (inds.filter fun ind => ind.signal == Signal.SELL).foldl
    (fun sum ind => sum + ind.strength) 0

/-- `const sentimentWeight = sentiment * 20`. -/
def sentimentWeight (sentiment : ℚ) : ℚ :=
  sentiment * 20

/-- `buyStrength + (sentiment > 0 ? sentimentWeight : 0)`. -/
def totalBuyStrength (inds : List TechnicalIndicator) (sentiment : ℚ) : ℚ :=
  buyStrength inds + (if sentiment > 0 then sentimentWeight sentiment else 0)

/-- `sellStrength + (sentiment < 0 ? Math.abs(sentimentWeight) : 0)`. -/
def totalSellStrength (inds : List TechnicalIndicator) (sentiment : ℚ) : ℚ :=
  sellStrength inds + (if sentiment < 0 then |sentimentWeight sentiment| else 0)

/-- The action branch of `generateTradingSignal`: first matching rule wins. -/
def decideAction (inds : List TechnicalIndicator) (sentiment : ℚ) : Signal :=
  if totalBuyStrength inds sentiment > totalSellStrength inds sentiment ∧
      buySignals inds ≥ 2 then
    Signal.BUY
  else if totalSellStrength inds sentiment > totalBuyStrength inds sentiment ∧
      sellSignals inds ≥ 2 then
    Signal.SELL
  else
    Signal.HOLD

/-- The confidence assigned in the same branch as the action.  `rHold` is the
draw of the randomness source used only in the HOLD branch
(`confidence = 50 + Math.random() * 20`). -/
def decideConfidence (inds : List TechnicalIndicator) (sentiment rHold : ℚ) : ℚ :=
  let tb := totalBuyStrength inds sentiment
  let ts := totalSellStrength inds sentiment
  if tb > ts ∧ buySignals inds ≥ 2 then
    min 95 (tb / (tb + ts) * 100)
  else if ts > tb ∧ sellSignals inds ≥ 2 then
    min 95 (ts / (tb + ts) * 100)
  else
    50 + rHold * 20

/-- `const volatility = 0.02 + Math.random() * 0.03`, with `rVol` the draw of
the randomness source. -/
def volatilityOf (rVol : ℚ) : ℚ :=
  0.02 + rVol * 0.03

/-- Entry, target and stop-loss prices of `generateTradingSignal` as the
triple (entryPrice, targetPrice, stopLoss); the HOLD case keeps the
initialisers, all three equal to `price`. -/
def priceLevels (action : Signal) (price vol : ℚ) : ℚ × ℚ × ℚ :=
  match action with
  | Signal.BUY => (price * (1 - 0.005), price * (1 + vol * 2), price * (1 - vol))
  | Signal.SELL => (price * (1 + 0.005), price * (1 - vol * 2), price * (1 + vol))
  | Signal.HOLD => (price, price, price)

/-- `Math.abs((targetPrice - entryPrice) / (entryPrice - stopLoss))`, modelling
the JavaScript division: when the denominator is zero the result is NaN or
Infinity, represented as `none`. -/
def riskRewardOf (entryPrice targetPrice stopLoss : ℚ) : Option ℚ :=
  if entryPrice - stopLoss = 0 then none
  else some |(targetPrice - entryPrice) / (entryPrice - stopLoss)|

/-- `generateTradingSignal(price, indicators, sentiment)` of the source.
`rHold` models the randomness draw of the HOLD-confidence branch and `rVol`
the volatility draw; both range over [0, 1) in the program. -/
def generateTradingSignal (price : ℚ) (inds : List TechnicalIndicator)
    (sentiment rHold rVol : ℚ) : TradingSignal :=
  let action := decideAction inds sentiment
  let confidence := decideConfidence inds sentiment rHold
  let levels := priceLevels action price (volatilityOf rVol)
  { action := action
    confidence := confidence
    entryPrice := levels.1
    targetPrice := levels.2.1
    stopLoss := levels.2.2
    riskReward := riskRewardOf levels.1 levels.2.1 levels.2.2
    timeframe := "1-3 days" }

/-- The risk-level derivation of `generateSignalData`:
`confidence > 80 → LOW; confidence > 60 → MEDIUM; else HIGH`. -/
def riskTier (confidence : ℚ) : RiskLevel :=
  if confidence > 80 then RiskLevel.LOW
  else if confidence > 60 then RiskLevel.MEDIUM
  else RiskLevel.HIGH

/-- Numeric rank of a risk level, LOW lowest: used to state monotonicity. -/
def RiskLevel.rank : RiskLevel → Nat
  | RiskLevel.LOW => 0
  | RiskLevel.MEDIUM => 1
  | RiskLevel.HIGH => 2

/-- `calculateTechnicalIndicators(price)` of the source.  The five draws of
the randomness source (for RSI, MACD, the two moving averages and volume) are
the explicit parameters `rRsi rMacd rMa20 rMa50 rVolume`, each in [0, 1) in
the program. -/
def calculateTechnicalIndicators (price rRsi rMacd rMa20 rMa50 rVolume : ℚ) :
    List TechnicalIndicator :=
  let rsi := rRsi * 100
  let macd := (rMacd - 0.5) * 5
  let ma20 := price * (0.95 + rMa20 * 0.1)
  let ma50 := price * (0.92 + rMa50 * 0.16)
  let upperBand := price * 1.02
  let lowerBand := price * 0.98
  let bbPosition := (price - lowerBand) / (upperBand - lowerBand) * 100
  let volumeStrength := rVolume * 100
  [ { name := "RSI (14)"
      value := rsi
      signal := if rsi < 30 then Signal.BUY
        else if rsi > 70 then Signal.SELL else Signal.HOLD
      strength := |rsi - 50| / 50 * 100
      description := "Momentum oscillator measuring speed and magnitude of price changes" },
    { name := "MACD"
      value := macd
      signal := if macd > 0 then Signal.BUY
        else if macd < -1 then Signal.SELL else Signal.HOLD
      strength := |macd| * 20
      description := "Trend-following momentum indicator" },
    { name := "MA Cross"
      value := (ma20 - ma50) / ma50 * 100
      signal := if ma20 > ma50 then Signal.BUY else Signal.SELL
      strength := |(ma20 - ma50) / ma50| * 500
      description := "20-day vs 50-day moving average crossover" },
    { name := "Bollinger Bands"
      value := bbPosition
      signal := if bbPosition < 20 then Signal.BUY
        else if bbPosition > 80 then Signal.SELL else Signal.HOLD
      strength := |bbPosition - 50| * 2
      description := "Volatility indicator using standard deviations" },
    { name := "Volume"
      value := volumeStrength
      signal := if volumeStrength > 70 then Signal.BUY
        else if volumeStrength < 30 then Signal.SELL else Signal.HOLD
      strength := volumeStrength
      description := "Trading volume momentum analysis" } ]

/-! ## Projection lemmas for `generateTradingSignal` -/

theorem generateTradingSignal_action (price sentiment rHold rVol : ℚ)
    (inds : List TechnicalIndicator) :
    (generateTradingSignal price inds sentiment rHold rVol).action =
      decideAction inds sentiment := rfl

theorem generateTradingSignal_confidence (price sentiment rHold rVol : ℚ)
    (inds : List TechnicalIndicator) :
    (generateTradingSignal price inds sentiment rHold rVol).confidence =
      decideConfidence inds sentiment rHold := rfl

theorem generateTradingSignal_entryPrice (price sentiment rHold rVol : ℚ)
    (inds : List TechnicalIndicator) :
    (generateTradingSignal price inds sentiment rHold rVol).entryPrice =
      (priceLevels (decideAction inds sentiment) price (volatilityOf rVol)).1 := rfl

theorem generateTradingSignal_targetPrice (price sentiment rHold rVol : ℚ)
    (inds : List TechnicalIndicator) :
    (generateTradingSignal price inds sentiment rHold rVol).targetPrice =
      (priceLevels (decideAction inds sentiment) price (volatilityOf rVol)).2.1 := rfl

theorem generateTradingSignal_stopLoss (price sentiment rHold rVol : ℚ)
    (inds : List TechnicalIndicator) :
    (generateTradingSignal price inds sentiment rHold rVol).stopLoss =
      (priceLevels (decideAction inds sentiment) price (volatilityOf rVol)).2.2 := rfl

theorem generateTradingSignal_riskReward (price sentiment rHold rVol : ℚ)
    (inds : List TechnicalIndicator) :
    (generateTradingSignal price inds sentiment rHold rVol).riskReward =
      (let levels := priceLevels (decideAction inds sentiment) price (volatilityOf rVol)
       riskRewardOf levels.1 levels.2.1 levels.2.2) := rfl

/-! ## Branch lemmas for the decision rule -/

theorem decideAction_buy {inds : List TechnicalIndicator} {sentiment : ℚ}
    (h1 : totalBuyStrength inds sentiment > totalSellStrength inds sentiment)
    (h2 : buySignals inds ≥ 2) :
    decideAction inds sentiment = Signal.BUY := by
  unfold decideAction
  rw [if_pos ⟨h1, h2⟩]

theorem decideAction_sell {inds : List TechnicalIndicator} {sentiment : ℚ}
    (h1 : totalSellStrength inds sentiment > totalBuyStrength inds sentiment)
    (h2 : sellSignals inds ≥ 2) :
    decideAction inds sentiment = Signal.SELL := by
  unfold decideAction
  rw [if_neg (fun hc => absurd hc.1 (not_lt.mpr h1.le)), if_pos ⟨h1, h2⟩]

theorem decideAction_hold {inds : List TechnicalIndicator} {sentiment : ℚ}
    (hb : ¬(totalBuyStrength inds sentiment > totalSellStrength inds sentiment ∧
        buySignals inds ≥ 2))
    (hs : ¬(totalSellStrength inds sentiment > totalBuyStrength inds sentiment ∧
        sellSignals inds ≥ 2)) :
    decideAction inds sentiment = Signal.HOLD := by
  unfold decideAction
  rw [if_neg hb, if_neg hs]

/-! ## Concrete indicator lists used as test inputs -/

/-- Two BUY indicators. -/
def buyPairInds : List TechnicalIndicator :=
  [ { name := "RSI (14)", value := 25, signal := Signal.BUY, strength := 50,
      description := "Momentum oscillator measuring speed and magnitude of price changes" },
    { name := "MACD", value := 1, signal := Signal.BUY, strength := 40,
      description := "Trend-following momentum indicator" } ]

/-- Two SELL indicators. -/
def sellPairInds : List TechnicalIndicator :=
  [ { name := "RSI (14)", value := 75, signal := Signal.SELL, strength := 50,
      description := "Momentum oscillator measuring speed and magnitude of price changes" },
    { name := "MACD", value := -2, signal := Signal.SELL, strength := 40,
      description := "Trend-following momentum indicator" } ]

/-- A single BUY indicator with dominant strength: the count gate blocks BUY. -/
def oneBuyDominant : List TechnicalIndicator :=
  [ { name := "RSI (14)", value := 25, signal := Signal.BUY, strength := 80,
      description := "Momentum oscillator measuring speed and magnitude of price changes" } ]

/-- Five HOLD indicators, as produced when every threshold rule lands in its
neutral band. -/
def fiveHoldInds : List TechnicalIndicator :=
  [ { name := "RSI (14)", value := 50, signal := Signal.HOLD, strength := 0,
      description := "Momentum oscillator measuring speed and magnitude of price changes" },
    { name := "MACD", value := -0.5, signal := Signal.HOLD, strength := 10,
      description := "Trend-following momentum indicator" },
    { name := "MA Cross", value := 0, signal := Signal.HOLD, strength := 0,
      description := "20-day vs 50-day moving average crossover" },
    { name := "Bollinger Bands", value := 50, signal := Signal.HOLD, strength := 0,
      description := "Volatility indicator using standard deviations" },
    { name := "Volume", value := 50, signal := Signal.HOLD, strength := 50,
      description := "Trading volume momentum analysis" } ]

/-- The scenario list of the spec: RSI BUY strength 40, MACD BUY strength 30,
MA Cross SELL strength 10. -/
def scenarioInds : List TechnicalIndicator :=
  [ { name := "RSI (14)", value := 25, signal := Signal.BUY, strength := 40,
      description := "Momentum oscillator measuring speed and magnitude of price changes" },
    { name := "MACD", value := 1, signal := Signal.BUY, strength := 30,
      description := "Trend-following momentum indicator" },
    { name := "MA Cross", value := -2, signal := Signal.SELL, strength := 10,
      description := "20-day vs 50-day moving average crossover" } ]

/-! ## C7: risk tier -/

/-- C7: `riskTier` maps confidence above 80 to LOW, confidence in (60, 80] to
MEDIUM and anything else to HIGH, and is antitone as a map from confidence to
risk rank: a higher confidence never yields a higher-risk tier. -/
theorem riskTier_spec (c : ℚ) :
    ((80 < c → riskTier c = RiskLevel.LOW) ∧
     (60 < c → c ≤ 80 → riskTier c = RiskLevel.MEDIUM) ∧
     (c ≤ 60 → riskTier c = RiskLevel.HIGH)) ∧
    (∀ d : ℚ, c ≤ d → (riskTier d).rank ≤ (riskTier c).rank) := by
  constructor
  · refine ⟨fun h1 => ?_, fun h1 h2 => ?_, fun h1 => ?_⟩ <;>
      unfold riskTier <;> split_ifs <;> first | rfl | linarith
  · intro d hcd
    unfold riskTier RiskLevel.rank
    split_ifs <;> simp <;> linarith

/-- Witness for C7 at concrete confidences 90, 70 and 50. -/
theorem riskTier_spec_witness :
    riskTier 90 = RiskLevel.LOW ∧ riskTier 70 = RiskLevel.MEDIUM ∧
    riskTier 50 = RiskLevel.HIGH ∧ (riskTier 90).rank ≤ (riskTier 50).rank :=
  ⟨(riskTier_spec 90).1.1 (by norm_num),
   (riskTier_spec 70).1.2.1 (by norm_num) (by norm_num),
   (riskTier_spec 50).1.2.2 (by norm_num),
   (riskTier_spec 50).2 90 (by norm_num)⟩

/-! ## C1: the BUY and SELL decision rules -/

/-- C1: whenever the total BUY strength (indicator strengths plus the
positive-sentiment contribution) strictly exceeds the total SELL strength and
at least two indicators signal BUY, the decision is BUY; symmetrically for
SELL. -/
theorem decide_buy_sell_gate (price sentiment rHold rVol : ℚ)
    (inds : List TechnicalIndicator) :
    (totalBuyStrength inds sentiment > totalSellStrength inds sentiment →
      buySignals inds ≥ 2 →
      (generateTradingSignal price inds sentiment rHold rVol).action = Signal.BUY) ∧
    (totalSellStrength inds sentiment > totalBuyStrength inds sentiment →
      sellSignals inds ≥ 2 →
      (generateTradingSignal price inds sentiment rHold rVol).action = Signal.SELL) := by
  refine ⟨fun h1 h2 => ?_, fun h1 h2 => ?_⟩
  · rw [generateTradingSignal_action]
    exact decideAction_buy h1 h2
  · rw [generateTradingSignal_action]
    exact decideAction_sell h1 h2

/-- Witness for C1: a two-BUY list decides BUY, a two-SELL list decides SELL. -/
theorem decide_buy_sell_gate_witness :
    (generateTradingSignal 100 buyPairInds 0 0 0).action = Signal.BUY ∧
    (generateTradingSignal 100 sellPairInds 0 0 0).action = Signal.SELL :=
  ⟨(decide_buy_sell_gate 100 0 0 0 buyPairInds).1
      (by norm_num [totalBuyStrength, totalSellStrength, buyStrength, sellStrength,
        sentimentWeight, buyPairInds, List.filter])
      (by norm_num [buySignals, buyPairInds, List.filter]),
   (decide_buy_sell_gate 100 0 0 0 sellPairInds).2
      (by norm_num [totalBuyStrength, totalSellStrength, buyStrength, sellStrength,
        sentimentWeight, sellPairInds, List.filter])
      (by norm_num [sellSignals, sellPairInds, List.filter])⟩

/-! ## C2: the HOLD fallthrough -/

/-- C2: when neither the BUY condition nor the SELL condition holds, the
decision is HOLD. -/
theorem decide_hold_default (price sentiment rHold rVol : ℚ)
    (inds : List TechnicalIndicator)
    (hb : ¬(totalBuyStrength inds sentiment > totalSellStrength inds sentiment ∧
        buySignals inds ≥ 2))
    (hs : ¬(totalSellStrength inds sentiment > totalBuyStrength inds sentiment ∧
        sellSignals inds ≥ 2)) :
    (generateTradingSignal price inds sentiment rHold rVol).action = Signal.HOLD := by
  rw [generateTradingSignal_action]
  exact decideAction_hold hb hs

/-- Witness for C2, in the shape of the spec scenario: a single BUY indicator
whose strength dominates still falls through to HOLD because of the two-vote
count gate. -/
theorem decide_hold_default_witness :
    (generateTradingSignal 100 oneBuyDominant 0 0 0).action = Signal.HOLD :=
  decide_hold_default 100 0 0 0 oneBuyDominant
    (by norm_num [buySignals, oneBuyDominant, List.filter])
    (by norm_num [totalBuyStrength, totalSellStrength, buyStrength, sellStrength,
      sentimentWeight, oneBuyDominant, List.filter])

/-! ## Nonnegativity of the strength sums -/

theorem strength_foldl_nonneg : ∀ (l : List TechnicalIndicator) (init : ℚ),
    0 ≤ init → (∀ ind ∈ l, 0 ≤ ind.strength) →
    0 ≤ l.foldl (fun sum ind => sum + ind.strength) init
  | [], _, h0, _ => h0
  | a :: t, init, h0, h =>
    strength_foldl_nonneg t (init + a.strength)
      (add_nonneg h0 (h a (List.mem_cons_self a t)))
      (fun i hi => h i (List.mem_cons_of_mem a hi))

theorem buyStrength_nonneg {inds : List TechnicalIndicator}
    (h : ∀ ind ∈ inds, 0 ≤ ind.strength) : 0 ≤ buyStrength inds :=
  strength_foldl_nonneg _ 0 le_rfl
    (fun i hi => h i (List.mem_of_mem_filter hi))

theorem sellStrength_nonneg {inds : List TechnicalIndicator}
    (h : ∀ ind ∈ inds, 0 ≤ ind.strength) : 0 ≤ sellStrength inds :=
  strength_foldl_nonneg _ 0 le_rfl
    (fun i hi => h i (List.mem_of_mem_filter hi))

theorem totalBuyStrength_nonneg {inds : List TechnicalIndicator} {sentiment : ℚ}
    (h : ∀ ind ∈ inds, 0 ≤ ind.strength) : 0 ≤ totalBuyStrength inds sentiment := by
  unfold totalBuyStrength sentimentWeight
  have hb := buyStrength_nonneg h
  split_ifs with hpos
  · nlinarith
  · linarith

theorem totalSellStrength_nonneg {inds : List TechnicalIndicator} {sentiment : ℚ}
    (h : ∀ ind ∈ inds, 0 ≤ ind.strength) : 0 ≤ totalSellStrength inds sentiment := by
  unfold totalSellStrength
  have hs := sellStrength_nonneg h
  have ha : (0:ℚ) ≤ |sentimentWeight sentiment| := abs_nonneg _
  split_ifs <;> linarith

/-! ## Branch lemmas for the confidence -/

theorem decideConfidence_buy {inds : List TechnicalIndicator} {sentiment : ℚ}
    (rHold : ℚ)
    (h1 : totalBuyStrength inds sentiment > totalSellStrength inds sentiment)
    (h2 : buySignals inds ≥ 2) :
    decideConfidence inds sentiment rHold =
      min 95 (totalBuyStrength inds sentiment /
        (totalBuyStrength inds sentiment + totalSellStrength inds sentiment) * 100) := by
  unfold decideConfidence
  rw [if_pos ⟨h1, h2⟩]

theorem decideConfidence_sell {inds : List TechnicalIndicator} {sentiment : ℚ}
    (rHold : ℚ)
    (h1 : totalSellStrength inds sentiment > totalBuyStrength inds sentiment)
    (h2 : sellSignals inds ≥ 2) :
    decideConfidence inds sentiment rHold =
      min 95 (totalSellStrength inds sentiment /
        (totalBuyStrength inds sentiment + totalSellStrength inds sentiment) * 100) := by
  unfold decideConfidence
  rw [if_neg (fun hc => absurd hc.1 (not_lt.mpr h1.le)), if_pos ⟨h1, h2⟩]

theorem decideConfidence_hold {inds : List TechnicalIndicator} {sentiment : ℚ}
    (rHold : ℚ)
    (hb : ¬(totalBuyStrength inds sentiment > totalSellStrength inds sentiment ∧
        buySignals inds ≥ 2))
    (hs : ¬(totalSellStrength inds sentiment > totalBuyStrength inds sentiment ∧
        sellSignals inds ≥ 2)) :
    decideConfidence inds sentiment rHold = 50 + rHold * 20 := by
  unfold decideConfidence
  rw [if_neg hb, if_neg hs]

/-! ## C9: HOLD price levels -/

/-- C9: every HOLD decision keeps all three price levels equal to the input
price. -/
theorem hold_price_levels (price sentiment rHold rVol : ℚ)
    (inds : List TechnicalIndicator)
    (h : (generateTradingSignal price inds sentiment rHold rVol).action = Signal.HOLD) :
    (generateTradingSignal price inds sentiment rHold rVol).entryPrice = price ∧
    (generateTradingSignal price inds sentiment rHold rVol).targetPrice = price ∧
    (generateTradingSignal price inds sentiment rHold rVol).stopLoss = price := by
  rw [generateTradingSignal_action] at h
  rw [generateTradingSignal_entryPrice, generateTradingSignal_targetPrice,
    generateTradingSignal_stopLoss, h]
  exact ⟨rfl, rfl, rfl⟩

/-- Witness for C9 in the shape of the spec scenario: five HOLD indicators and
zero sentiment give a HOLD decision whose three price levels equal the price. -/
theorem hold_price_levels_witness :
    (generateTradingSignal 100 fiveHoldInds 0 0 0).entryPrice = 100 ∧
    (generateTradingSignal 100 fiveHoldInds 0 0 0).targetPrice = 100 ∧
    (generateTradingSignal 100 fiveHoldInds 0 0 0).stopLoss = 100 :=
  hold_price_levels 100 0 0 0 fiveHoldInds
    (by
      rw [generateTradingSignal_action]
      exact decideAction_hold
        (by norm_num [buySignals, fiveHoldInds, List.filter])
        (by norm_num [sellSignals, fiveHoldInds, List.filter]))

/-! ## C3: the risk/reward ratio -/

/-- Counterexample for C3: on a HOLD decision (five HOLD indicators, zero
sentiment) the three price levels coincide, the source divides zero by zero,
and the risk/reward ratio is not a defined number: the division is not
guarded. -/
theorem riskReward_unguarded_counterexample :
    (generateTradingSignal 100 fiveHoldInds 0 0 0).riskReward = none := by
  have h : decideAction fiveHoldInds 0 = Signal.HOLD :=
    decideAction_hold
      (by norm_num [buySignals, fiveHoldInds, List.filter])
      (by norm_num [sellSignals, fiveHoldInds, List.filter])
  rw [generateTradingSignal_riskReward]
  simp only [h, priceLevels, riskRewardOf]
  norm_num

/-- C3 amended: for BUY and SELL decisions (positive price, volatility draw in
[0, 1)) the risk/reward ratio is the defined non-negative number
|targetPrice - entryPrice| / |entryPrice - stopLoss|; for HOLD decisions the
division 0/0 is unguarded and yields no number (NaN), modelled as `none`. -/
theorem riskReward_spec (price sentiment rHold rVol : ℚ)
    (inds : List TechnicalIndicator) (s : TradingSignal)
    (hs : s = generateTradingSignal price inds sentiment rHold rVol)
    (hp : 0 < price) (hr : 0 ≤ rVol) :
    (s.action = Signal.HOLD → s.riskReward = none) ∧
    (s.action ≠ Signal.HOLD →
      s.riskReward = some (|s.targetPrice - s.entryPrice| / |s.entryPrice - s.stopLoss|) ∧
      ∀ q, s.riskReward = some q → 0 ≤ q) := by
  subst hs
  have hv : (0.005 : ℚ) < volatilityOf rVol := by
    unfold volatilityOf
    nlinarith
  rw [generateTradingSignal_action, generateTradingSignal_riskReward,
    generateTradingSignal_entryPrice, generateTradingSignal_targetPrice,
    generateTradingSignal_stopLoss]
  rcases ha : decideAction inds sentiment with _ | _ | _
  · -- BUY
    refine ⟨fun h => by exact absurd h (by simp), fun _ => ?_⟩
    have hd : price * (1 - 0.005) - price * (1 - volatilityOf rVol) =
        price * (volatilityOf rVol - 0.005) := by ring
    have hdpos : 0 < price * (volatilityOf rVol - 0.005) :=
      mul_pos hp (by linarith)
    constructor
    · simp only [priceLevels, riskRewardOf, hd]
      rw [if_neg (by positivity), abs_div]
    · intro q hq
      simp only [priceLevels, riskRewardOf, hd] at hq
      rw [if_neg (by positivity)] at hq
      obtain rfl : |(price * (1 + volatilityOf rVol * 2) - price * (1 - 0.005)) /
          (price * (volatilityOf rVol - 0.005))| = q := Option.some.injEq _ _ ▸ hq
      positivity
  · -- SELL
    refine ⟨fun h => by exact absurd h (by simp), fun _ => ?_⟩
    have hd : price * (1 + 0.005) - price * (1 + volatilityOf rVol) =
        -(price * (volatilityOf rVol - 0.005)) := by ring
    have hdpos : 0 < price * (volatilityOf rVol - 0.005) :=
      mul_pos hp (by linarith)
    have hdne : -(price * (volatilityOf rVol - 0.005)) ≠ 0 := by
      simp only [neg_ne_zero]
      positivity
    constructor
    · simp only [priceLevels, riskRewardOf, hd]
      rw [if_neg hdne, abs_div]
    · intro q hq
      simp only [priceLevels, riskRewardOf, hd] at hq
      rw [if_neg hdne] at hq
      obtain rfl : |(price * (1 - volatilityOf rVol * 2) - price * (1 + 0.005)) /
          -(price * (volatilityOf rVol - 0.005))| = q := Option.some.injEq _ _ ▸ hq
      positivity
  · -- HOLD
    refine ⟨fun _ => ?_, fun h => absurd rfl h⟩
    simp only [priceLevels, riskRewardOf]
    norm_num

/-- Witness for C3 amended: a two-BUY list at price 100 and volatility draw 0
(volatility 0.02) has the defined ratio |104 - 99.5| / |99.5 - 98| = 3. -/
theorem riskReward_spec_witness :
    (generateTradingSignal 100 buyPairInds 0 0 0).riskReward = some 3 := by
  have hb : decideAction buyPairInds 0 = Signal.BUY :=
    decideAction_buy
      (by norm_num [totalBuyStrength, totalSellStrength, buyStrength, sellStrength,
        sentimentWeight, buyPairInds, List.filter])
      (by norm_num [buySignals, buyPairInds, List.filter])
  have h := (riskReward_spec 100 0 0 0 buyPairInds _ rfl (by norm_num) le_rfl).2
    (by rw [generateTradingSignal_action, hb]; exact fun hc => nomatch hc)
  rw [h.1, generateTradingSignal_entryPrice, generateTradingSignal_targetPrice,
    generateTradingSignal_stopLoss, hb]
  simp only [priceLevels, volatilityOf]
  norm_num
  rw [abs_of_pos (by norm_num : (0:ℚ) < 9 / 2), abs_of_pos (by norm_num : (0:ℚ) < 3 / 2)]
  norm_num

/-! ## C4 and C5: BUY and SELL price levels -/

/-- C4: for a BUY decision at a positive price, the sampled volatility
(0.02 plus 0.03 times a randomness draw in [0, 1)) is strictly positive and
the price levels follow the stated formulas with
targetPrice > entryPrice > stopLoss. -/
theorem buy_price_levels (price sentiment rHold rVol : ℚ)
    (inds : List TechnicalIndicator) (s : TradingSignal)
    (hs : s = generateTradingSignal price inds sentiment rHold rVol)
    (hp : 0 < price) (hr : 0 ≤ rVol)
    (hb : s.action = Signal.BUY) :
    0 < volatilityOf rVol ∧
    s.entryPrice = price * 0.995 ∧
    s.targetPrice = price * (1 + 2 * volatilityOf rVol) ∧
    s.stopLoss = price * (1 - volatilityOf rVol) ∧
    s.targetPrice > s.entryPrice ∧ s.entryPrice > s.stopLoss := by
  subst hs
  rw [generateTradingSignal_action] at hb
  rw [generateTradingSignal_entryPrice, generateTradingSignal_targetPrice,
    generateTradingSignal_stopLoss, hb]
  simp only [priceLevels]
  have hv : (0.005 : ℚ) < volatilityOf rVol := by
    unfold volatilityOf
    nlinarith
  refine ⟨by linarith, by ring_nf, by ring_nf, by ring_nf, ?_, ?_⟩
  · nlinarith
  · nlinarith

/-- Witness for C4: two BUY indicators at price 100 and volatility draw 0. -/
theorem buy_price_levels_witness :
    0 < volatilityOf 0 ∧
    (generateTradingSignal 100 buyPairInds 0 0 0).entryPrice = 100 * 0.995 ∧
    (generateTradingSignal 100 buyPairInds 0 0 0).targetPrice =
      100 * (1 + 2 * volatilityOf 0) ∧
    (generateTradingSignal 100 buyPairInds 0 0 0).stopLoss =
      100 * (1 - volatilityOf 0) ∧
    (generateTradingSignal 100 buyPairInds 0 0 0).targetPrice >
      (generateTradingSignal 100 buyPairInds 0 0 0).entryPrice ∧
    (generateTradingSignal 100 buyPairInds 0 0 0).entryPrice >
      (generateTradingSignal 100 buyPairInds 0 0 0).stopLoss :=
  buy_price_levels 100 0 0 0 buyPairInds _ rfl (by norm_num) le_rfl
    (by
      rw [generateTradingSignal_action]
      exact decideAction_buy
        (by norm_num [totalBuyStrength, totalSellStrength, buyStrength, sellStrength,
          sentimentWeight, buyPairInds, List.filter])
        (by norm_num [buySignals, buyPairInds, List.filter]))

/-- C5: for a SELL decision at a positive price, the sampled volatility lies
in the configured range [0.02, 0.05] and the price levels follow the stated
formulas with stopLoss > entryPrice > targetPrice. -/
theorem sell_price_levels (price sentiment rHold rVol : ℚ)
    (inds : List TechnicalIndicator) (s : TradingSignal)
    (hs : s = generateTradingSignal price inds sentiment rHold rVol)
    (hp : 0 < price) (hr0 : 0 ≤ rVol) (hr1 : rVol < 1)
    (hsell : s.action = Signal.SELL) :
    0.02 ≤ volatilityOf rVol ∧ volatilityOf rVol ≤ 0.05 ∧
    s.entryPrice = price * 1.005 ∧
    s.targetPrice = price * (1 - 2 * volatilityOf rVol) ∧
    s.stopLoss = price * (1 + volatilityOf rVol) ∧
    s.stopLoss > s.entryPrice ∧ s.entryPrice > s.targetPrice := by
  subst hs
  rw [generateTradingSignal_action] at hsell
  rw [generateTradingSignal_entryPrice, generateTradingSignal_targetPrice,
    generateTradingSignal_stopLoss, hsell]
  simp only [priceLevels]
  have hv1 : (0.02 : ℚ) ≤ volatilityOf rVol := by
    unfold volatilityOf
    nlinarith
  have hv2 : volatilityOf rVol ≤ (0.05 : ℚ) := by
    unfold volatilityOf
    nlinarith
  refine ⟨hv1, hv2, by ring_nf, by ring_nf, by ring_nf, ?_, ?_⟩
  · nlinarith
  · nlinarith

/-- Witness for C5: two SELL indicators at price 100 and volatility draw 0. -/
theorem sell_price_levels_witness :
    0.02 ≤ volatilityOf 0 ∧ volatilityOf 0 ≤ 0.05 ∧
    (generateTradingSignal 100 sellPairInds 0 0 0).entryPrice = 100 * 1.005 ∧
    (generateTradingSignal 100 sellPairInds 0 0 0).targetPrice =
      100 * (1 - 2 * volatilityOf 0) ∧
    (generateTradingSignal 100 sellPairInds 0 0 0).stopLoss =
      100 * (1 + volatilityOf 0) ∧
    (generateTradingSignal 100 sellPairInds 0 0 0).stopLoss >
      (generateTradingSignal 100 sellPairInds 0 0 0).entryPrice ∧
    (generateTradingSignal 100 sellPairInds 0 0 0).entryPrice >
      (generateTradingSignal 100 sellPairInds 0 0 0).targetPrice :=
  sell_price_levels 100 0 0 0 sellPairInds _ rfl (by norm_num) le_rfl (by norm_num)
    (by
      rw [generateTradingSignal_action]
      exact decideAction_sell
        (by norm_num [totalBuyStrength, totalSellStrength, buyStrength, sellStrength,
          sentimentWeight, sellPairInds, List.filter])
        (by norm_num [sellSignals, sellPairInds, List.filter]))

/-! ## C6: confidence formula and bounds -/

/-- C6: with non-negative indicator strengths and a HOLD-confidence draw in
[0, 1), a BUY or SELL confidence equals
min(95, winningStrength / (winningStrength + losingStrength) * 100) and lies
in [0, 95], and a HOLD confidence lies in [50, 70]. -/
theorem confidence_bounds (price sentiment rHold rVol : ℚ)
    (inds : List TechnicalIndicator) (s : TradingSignal)
    (hs : s = generateTradingSignal price inds sentiment rHold rVol)
    (hstr : ∀ ind ∈ inds, 0 ≤ ind.strength)
    (h0 : 0 ≤ rHold) (h1 : rHold < 1) :
    (s.action = Signal.BUY → s.confidence =
      min 95 (totalBuyStrength inds sentiment /
        (totalBuyStrength inds sentiment + totalSellStrength inds sentiment) * 100)) ∧
    (s.action = Signal.SELL → s.confidence =
      min 95 (totalSellStrength inds sentiment /
        (totalBuyStrength inds sentiment + totalSellStrength inds sentiment) * 100)) ∧
    (s.action ≠ Signal.HOLD → 0 ≤ s.confidence ∧ s.confidence ≤ 95) ∧
    (s.action = Signal.HOLD → 50 ≤ s.confidence ∧ s.confidence ≤ 70) := by
  subst hs
  rw [generateTradingSignal_action, generateTradingSignal_confidence]
  have htb := @totalBuyStrength_nonneg inds sentiment hstr
  have hts := @totalSellStrength_nonneg inds sentiment hstr
  by_cases hc1 : totalBuyStrength inds sentiment > totalSellStrength inds sentiment ∧
      buySignals inds ≥ 2
  · have ha : decideAction inds sentiment = Signal.BUY := decideAction_buy hc1.1 hc1.2
    have hcf := @decideConfidence_buy inds sentiment rHold hc1.1 hc1.2
    have hd : 0 < totalBuyStrength inds sentiment + totalSellStrength inds sentiment := by
      linarith [hc1.1]
    refine ⟨fun _ => hcf, fun hx => by rw [ha] at hx; exact absurd hx (by simp), fun _ => ?_, fun hx => by rw [ha] at hx; exact absurd hx (by simp)⟩
    rw [hcf]
    constructor
    · exact le_min (by norm_num)
        (mul_nonneg (div_nonneg htb hd.le) (by norm_num))
    · exact min_le_left _ _
  · by_cases hc2 : totalSellStrength inds sentiment > totalBuyStrength inds sentiment ∧
        sellSignals inds ≥ 2
    · have ha : decideAction inds sentiment = Signal.SELL := decideAction_sell hc2.1 hc2.2
      have hcf := @decideConfidence_sell inds sentiment rHold hc2.1 hc2.2
      have hd : 0 < totalBuyStrength inds sentiment + totalSellStrength inds sentiment := by
        linarith [hc2.1]
      refine ⟨fun hx => by rw [ha] at hx; exact absurd hx (by simp), fun _ => hcf, fun _ => ?_, fun hx => by rw [ha] at hx; exact absurd hx (by simp)⟩
      rw [hcf]
      constructor
      · exact le_min (by norm_num)
          (mul_nonneg (div_nonneg hts hd.le) (by norm_num))
      · exact min_le_left _ _
    · have ha : decideAction inds sentiment = Signal.HOLD := decideAction_hold hc1 hc2
      have hcf := @decideConfidence_hold inds sentiment rHold hc1 hc2
      refine ⟨fun hx => by rw [ha] at hx; exact absurd hx (by simp),
        fun hx => by rw [ha] at hx; exact absurd hx (by simp),
        fun hx => by rw [ha] at hx; exact absurd rfl hx, fun _ => ?_⟩
      rw [hcf]
      constructor <;> nlinarith

/-- Witness for C6: the two-BUY list at price 100 yields a BUY decision with
confidence min(95, 90 / 90 * 100) = 95, inside [0, 95]. -/
theorem confidence_bounds_witness :
    0 ≤ (generateTradingSignal 100 buyPairInds 0 0 0).confidence ∧
    (generateTradingSignal 100 buyPairInds 0 0 0).confidence ≤ 95 :=
  (confidence_bounds 100 0 0 0 buyPairInds _ rfl
    (by
      intro ind hind
      simp only [buyPairInds, List.mem_cons, List.not_mem_nil, or_false] at hind
      rcases hind with h | h <;> subst h <;> norm_num)
    le_rfl (by norm_num)).2.2.1
    (by
      rw [generateTradingSignal_action, decideAction_buy
        (by norm_num [totalBuyStrength, totalSellStrength, buyStrength, sellStrength,
          sentimentWeight, buyPairInds, List.filter])
        (by norm_num [buySignals, buyPairInds, List.filter])]
      exact fun hc => nomatch hc)

/-! ## C8: the spec scenario -/

/-- C8: at price 100, indicators BUY 40 / BUY 30 / SELL 10 and sentiment 0.2,
the decision is BUY with confidence (70 + 0.2 * 20) / (70 + 0.2 * 20 + 10) * 100
= 74 / 84 * 100, for every draw of the randomness source. -/
theorem scenario_buy_confidence (rHold rVol : ℚ) :
    (generateTradingSignal 100 scenarioInds 0.2 rHold rVol).action = Signal.BUY ∧
    (generateTradingSignal 100 scenarioInds 0.2 rHold rVol).confidence =
      74 / 84 * 100 := by
  have h1 : totalBuyStrength scenarioInds 0.2 = 74 := by
    norm_num [totalBuyStrength, buyStrength, sentimentWeight, scenarioInds, List.filter]
  have h2 : totalSellStrength scenarioInds 0.2 = 10 := by
    norm_num [totalSellStrength, sellStrength, sentimentWeight, scenarioInds, List.filter]
  have hb : buySignals scenarioInds ≥ 2 := by
    norm_num [buySignals, scenarioInds, List.filter]
  have hgt : totalBuyStrength scenarioInds 0.2 > totalSellStrength scenarioInds 0.2 := by
    rw [h1, h2]; norm_num
  constructor
  · rw [generateTradingSignal_action]
    exact decideAction_buy hgt hb
  · rw [generateTradingSignal_confidence, decideConfidence_buy rHold hgt hb, h1, h2]
    rw [min_eq_right (by norm_num)]
    norm_num

/-! ## C10: the Bollinger Bands indicator is constant -/

/-- C10: for every positive price and every outcome of the randomness source,
the fourth indicator produced by `calculateTechnicalIndicators` is the constant
Bollinger Bands indicator: band position exactly 50, signal HOLD, strength 0,
so it never contributes a BUY or SELL vote or any strength. -/
theorem bollinger_constant (price rRsi rMacd rMa20 rMa50 rVolume : ℚ)
    (hp : 0 < price) :
    (calculateTechnicalIndicators price rRsi rMacd rMa20 rMa50 rVolume)[3]? =
      some { name := "Bollinger Bands", value := 50, signal := Signal.HOLD,
             strength := 0,
             description := "Volatility indicator using standard deviations" } := by
  have hbb : (price - price * 0.98) / (price * 1.02 - price * 0.98) * 100 = 50 := by
    rw [show price - price * 0.98 = price * 0.02 by ring,
      show price * 1.02 - price * 0.98 = price * 0.04 by ring,
      mul_div_mul_left _ _ (ne_of_gt hp)]
    norm_num
  simp only [calculateTechnicalIndicators, hbb]
  norm_num

/-- Witness for C10 at price 100 and all randomness draws 0. -/
theorem bollinger_constant_witness :
    (calculateTechnicalIndicators 100 0 0 0 0 0)[3]? =
      some { name := "Bollinger Bands", value := 50, signal := Signal.HOLD,
             strength := 0,
             description := "Volatility indicator using standard deviations" } :=
  bollinger_constant 100 0 0 0 0 0 (by norm_num)
